import Mathlib

/-!
Verification of the MQL5 job monitor script (src/script.py).

The script is a single-shot pipeline: fetch an RSS feed, derive a stable
identifier for the newest entry, compare it with a persisted identifier
(file last_seen.txt), send one Telegram notification on change, and persist
the new identifier only after a successful send.

We embed the script shallowly: each Python helper becomes a Lean function,
and the effectful parts (HTTP fetch, Telegram send, file read/write) are
driven by an explicit environment recording the outcome of each external
interaction. The instrumented result of a run records the exit behaviour,
how many fetch and notification calls happened, which identifiers were
written, and the resulting persisted state.
-/

namespace MQL5Monitor

/-- One parsed feed entry, as the script accesses it through dict-style
gets: each field is present or absent. Mirrors the fields used by
generate_job_id and format_job_message in src/script.py. -/
structure Entry where
  link : Option String := none
  title : Option String := none
  published : Option String := none
  pubDate : Option String := none
  summary : Option String := none
deriving Repr, DecidableEq

/-- Python str.strip(): drop whitespace from both ends. Embedded as a
structural list computation so the kernel can evaluate it. -/
def pyStrip (s : String) : String :=
  String.mk (((s.data.dropWhile Char.isWhitespace).reverse.dropWhile Char.isWhitespace).reverse)

/-- entry.get("published", entry.get("pubDate", dflt)) from the script. -/
def entryPublished (e : Entry) (dflt : String) : String :=
  match e.published with
  | some v => v
  | none => e.pubDate.getD dflt

/-! ### MD5 (hashlib.md5(...).hexdigest() used by generate_job_id)

Machine words are Nats reduced mod 2^32 at every operation. -/

/-- Addition mod 2^32. -/
def add32 (a b : Nat) : Nat := (a + b) % 4294967296

/-- Left rotation of a 32-bit word by c bits (0 < c < 32). -/
def rotl32 (x c : Nat) : Nat :=
  (x % 2 ^ (32 - c)) * 2 ^ c + x / 2 ^ (32 - c)

/-- Bitwise complement on 32 bits. -/
def not32 (x : Nat) : Nat := x ^^^ 4294967295

/-- MD5 round function F. -/
def mdF (b c d : Nat) : Nat := (b &&& c) ||| (not32 b &&& d)

/-- MD5 round function G. -/
def mdG (b c d : Nat) : Nat := (b &&& d) ||| (c &&& not32 d)

/-- MD5 round function H. -/
def mdH (b c d : Nat) : Nat := b ^^^ c ^^^ d

/-- MD5 round function I. -/
def mdI (b c d : Nat) : Nat := c ^^^ (b ||| not32 d)

/-- MD5 sine-derived round constants. -/
def md5K : List Nat :=
  [0xd76aa478, 0xe8c7b756, 0x242070db, 0xc1bdceee,
   0xf57c0faf, 0x4787c62a, 0xa8304613, 0xfd469501,
   0x698098d8, 0x8b44f7af, 0xffff5bb1, 0x895cd7be,
   0x6b901122, 0xfd987193, 0xa679438e, 0x49b40821,
   0xf61e2562, 0xc040b340, 0x265e5a51, 0xe9b6c7aa,
   0xd62f105d, 0x02441453, 0xd8a1e681, 0xe7d3fbc8,
   0x21e1cde6, 0xc33707d6, 0xf4d50d87, 0x455a14ed,
   0xa9e3e905, 0xfcefa3f8, 0x676f02d9, 0x8d2a4c8a,
   0xfffa3942, 0x8771f681, 0x6d9d6122, 0xfde5380c,
   0xa4beea44, 0x4bdecfa9, 0xf6bb4b60, 0xbebfbc70,
   0x289b7ec6, 0xeaa127fa, 0xd4ef3085, 0x04881d05,
   0xd9d4d039, 0xe6db99e5, 0x1fa27cf8, 0xc4ac5665,
   0xf4292244, 0x432aff97, 0xab9423a7, 0xfc93a039,
   0x655b59c3, 0x8f0ccc92, 0xffeff47d, 0x85845dd1,
   0x6fa87e4f, 0xfe2ce6e0, 0xa3014314, 0x4e0811a1,
   0xf7537e82, 0xbd3af235, 0x2ad7d2bb, 0xeb86d391]

/-- MD5 per-round left-rotation amounts. -/
def md5s : List Nat :=
  [7, 12, 17, 22, 7, 12, 17, 22, 7, 12, 17, 22, 7, 12, 17, 22,
   5, 9, 14, 20, 5, 9, 14, 20, 5, 9, 14, 20, 5, 9, 14, 20,
   4, 11, 16, 23, 4, 11, 16, 23, 4, 11, 16, 23, 4, 11, 16, 23,
   6, 10, 15, 21, 6, 10, 15, 21, 6, 10, 15, 21, 6, 10, 15, 21]

/-- Little-endian 32-bit word number g of a 64-byte block. -/
def leWord (block : List Nat) (g : Nat) : Nat :=
  block.getD (4 * g) 0 + block.getD (4 * g + 1) 0 * 256 +
    block.getD (4 * g + 2) 0 * 65536 + block.getD (4 * g + 3) 0 * 16777216

/-- One of the 64 MD5 rounds on state (a, b, c, d). -/
def md5Round (block : List Nat) (i : Nat) (st : Nat × Nat × Nat × Nat) :
    Nat × Nat × Nat × Nat :=
  let a := st.1
  let b := st.2.1
  let c := st.2.2.1
  let d := st.2.2.2
  let f :=
    if i < 16 then mdF b c d
    else if i < 32 then mdG b c d
    else if i < 48 then mdH b c d
    else mdI b c d
  let g :=
    if i < 16 then i
    else if i < 32 then (5 * i + 1) % 16
    else if i < 48 then (3 * i + 5) % 16
    else (7 * i) % 16
  let f2 := (f + a + md5K.getD i 0 + leWord block g) % 4294967296
  (d, add32 b (rotl32 f2 (md5s.getD i 0)), b, c)

/-- Process one 64-byte block, adding the round result into the state. -/
def md5Block (st0 : Nat × Nat × Nat × Nat) (block : List Nat) :
    Nat × Nat × Nat × Nat :=
  let r := (List.range 64).foldl (fun s i => md5Round block i s) st0
  (add32 st0.1 r.1, add32 st0.2.1 r.2.1, add32 st0.2.2.1 r.2.2.1,
   add32 st0.2.2.2 r.2.2.2)

/-- Split a byte list into 64-byte chunks. -/
def chunk64 : List Nat → List (List Nat)
  | [] => []
  | x :: xs => ((x :: xs).take 64) :: chunk64 ((x :: xs).drop 64)
termination_by l => l.length
decreasing_by simp; omega

/-- Eight little-endian bytes of the 64-bit bit-length of the message. -/
def lenBytes (len : Nat) : List Nat :=
  (List.range 8).map (fun i => len * 8 / 2 ^ (8 * i) % 256)

/-- MD5 padding: 0x80, zeros to 56 mod 64, then the 64-bit bit length. -/
def md5Pad (msg : List Nat) : List Nat :=
  msg ++ [128] ++ List.replicate ((119 - msg.length % 64) % 64) 0 ++
    lenBytes msg.length

/-- MD5 initial state. -/
def md5Init : Nat × Nat × Nat × Nat :=
  (0x67452301, 0xefcdab89, 0x98badcfe, 0x10325476)

/-- Four little-endian bytes of a 32-bit word. -/
def leBytes (w : Nat) : List Nat :=
  [w % 256, w / 256 % 256, w / 65536 % 256, w / 16777216 % 256]

/-- The 16-byte MD5 digest of a byte string. -/
def md5Digest (msg : List Nat) : List Nat :=
  let st := (chunk64 (md5Pad msg)).foldl md5Block md5Init
  leBytes st.1 ++ leBytes st.2.1 ++ leBytes st.2.2.1 ++ leBytes st.2.2.2

/-- The sixteen lowercase hex digit characters. -/
def hexChars : List Char := "0123456789abcdef".data

/-- Hex character of a nibble. -/
def hexNibble (n : Nat) : Char := hexChars.getD (n % 16) '0'

/-- Two hex characters of a byte, high nibble first. -/
def byteToHex (b : Nat) : List Char := [hexNibble (b / 16), hexNibble b]

/-- Hex characters of a byte list. -/
def bytesToHex (bs : List Nat) : List Char := bs.flatMap byteToHex

/-- hashlib.md5(s.encode()).hexdigest(): hex digest of the UTF-8 bytes. -/
def md5_hexdigest (s : String) : String :=
  String.mk (bytesToHex (md5Digest (s.toUTF8.data.toList.map UInt8.toNat)))

/-- generate_job_id from src/script.py: the stripped link when non-empty,
otherwise the MD5 hex digest of "title|published" (both stripped, published
falling back to pubDate then to the empty string). -/
def generate_job_id (e : Entry) : String :=
  let link := pyStrip (e.link.getD "")
  if link ≠ "" then link
  else
    let title := pyStrip (e.title.getD "")
    let published := pyStrip (entryPublished e "")
    md5_hexdigest (title ++ "|" ++ published)

/-! ### The run model

The script's externally visible effects are driven by the outcome of four
interactions: the HTTP fetch, the persisted-file read, the Telegram send,
and the persisted-file write. An Env fixes those outcomes for one run. -/

/-- Python truthiness of an optional string: absent or empty is falsy
(the script tests credentials and the link with bare `if`/`if not`). -/
def falsy : Option String → Bool
  | none => true
  | some s => s == ""

/-- A parsed feed as the script sees it: its entry list (newest first) and
the parser's malformed-input flag (bozo), which the script only logs. -/
structure Feed where
  entries : List Entry
  bozo : Bool := false
deriving Repr, DecidableEq

/-- Outcome of the HTTP fetch plus feedparser.parse inside fetch_rss_feed:
either a parsed feed, a requests exception, or any other exception. -/
inductive FetchOutcome where
  | ok (feed : Feed)
  | requestError
  | otherError
deriving Repr, DecidableEq

/-- fetch_rss_feed from src/script.py: exceptions and empty entry lists
yield None; otherwise the parsed feed (bozo only produces a log line). -/
def fetch_rss_feed : FetchOutcome → Option Feed
  | .ok feed => if feed.entries.isEmpty then none else some feed
  | .requestError => none
  | .otherError => none

/-- Outcome of the requests.post call to the Telegram API inside
send_telegram_message. -/
inductive SendOutcome where
  | apiOk
  | apiRejected
  | timeout
  | requestError
  | otherError
deriving Repr, DecidableEq

/-- send_telegram_message from src/script.py: False when a credential is
missing; otherwise True exactly when the API call succeeds and the JSON
reply has ok=true. Timeouts, request errors, other exceptions and
non-ok replies are all False. -/
def send_telegram_message (botToken chatId : Option String)
    (outcome : SendOutcome) : Bool :=
  if falsy botToken || falsy chatId then false
  else
    match outcome with
    | .apiOk => true
    | .apiRejected => false
    | .timeout => false
    | .requestError => false
    | .otherError => false

/-- The persisted state: content of last_seen.txt, or none when the file
does not exist. -/
structure PersistState where
  file : Option String
deriving Repr, DecidableEq

/-- read_last_seen from src/script.py: None when the file does not exist
or reading raises; otherwise the stripped content. -/
def read_last_seen (st : PersistState) (readFails : Bool) : Option String :=
  match st.file with
  | none => none
  | some content => if readFails then none else some (pyStrip content)

/-- write_last_seen from src/script.py: overwrite the file with the
identifier; a raised exception is logged and leaves the file as it was. -/
def write_last_seen (writeFails : Bool) (st : PersistState)
    (identifier : String) : PersistState :=
  if writeFails then st else { file := some identifier }

/-- The environment of one run: the credentials in the process environment
and the outcome of every external interaction the run may perform. -/
structure Env where
  botToken : Option String
  chatId : Option String
  fetch : FetchOutcome
  readFails : Bool
  send : SendOutcome
  writeFails : Bool
deriving Repr, DecidableEq

/-- Instrumented result of one call to main: the sys.exit code if main
raised SystemExit (none when it returned normally), how many times the
feed fetch and the Telegram send were invoked, the identifiers passed to
write_last_seen in order, and the persisted state after the run. -/
structure MainOutcome where
  exitCode : Option Nat
  fetchAttempts : Nat
  notifyAttempts : Nat
  writes : List String
  state : PersistState
deriving Repr, DecidableEq

/-- main from src/script.py, lines 156-206, as a function of the run
environment and the persisted state at the start of the run. -/
def main (env : Env) (st : PersistState) : MainOutcome :=
  if falsy env.botToken then
    { exitCode := some 1, fetchAttempts := 0, notifyAttempts := 0,
      writes := [], state := st }
  else if falsy env.chatId then
    { exitCode := some 1, fetchAttempts := 0, notifyAttempts := 0,
      writes := [], state := st }
  else
    match fetch_rss_feed env.fetch with
    | none =>
      { exitCode := none, fetchAttempts := 1, notifyAttempts := 0,
        writes := [], state := st }
    | some feed =>
      match feed.entries with
      | [] =>
        { exitCode := none, fetchAttempts := 1, notifyAttempts := 0,
          writes := [], state := st }
      | latest :: _ =>
        let current := generate_job_id latest
        if current = "" then
          { exitCode := none, fetchAttempts := 1, notifyAttempts := 0,
            writes := [], state := st }
        else
          match read_last_seen st env.readFails with
          | none =>
            { exitCode := none, fetchAttempts := 1, notifyAttempts := 0,
              writes := [current],
              state := write_last_seen env.writeFails st current }
          | some lastSeen =>
            if current ≠ lastSeen then
              if send_telegram_message env.botToken env.chatId env.send then
                { exitCode := none, fetchAttempts := 1, notifyAttempts := 1,
                  writes := [current],
                  state := write_last_seen env.writeFails st current }
              else
                { exitCode := none, fetchAttempts := 1, notifyAttempts := 1,
                  writes := [], state := st }
            else
              { exitCode := none, fetchAttempts := 1, notifyAttempts := 0,
                writes := [], state := st }

/-- How the call to main() inside the top-level try can end: a normal
return, a SystemExit with a code (not caught by `except Exception`, since
SystemExit derives from BaseException), a KeyboardInterrupt, or any other
exception. -/
inductive MainBehavior where
  | returns
  | exits (code : Nat)
  | keyboardInterrupt
  | unexpectedError
deriving Repr, DecidableEq

/-- The `if __name__ == "__main__"` block, lines 208-216: process exit
code as a function of how main() ended. KeyboardInterrupt is caught and
converted to sys.exit(0); any other Exception is logged and converted to
sys.exit(1); SystemExit propagates; a normal return exits 0. -/
def top_level : MainBehavior → Nat
  | .returns => 0
  | .exits code => code
  | .keyboardInterrupt => 0
  | .unexpectedError => 1

/-- How main ends in the run model: it either returns or raises
SystemExit via sys.exit. -/
def mainBehavior (env : Env) (st : PersistState) : MainBehavior :=
  match (main env st).exitCode with
  | some code => .exits code
  | none => .returns

/-- Exit code of the whole process for one modelled run. -/
def process_exit (env : Env) (st : PersistState) : Nat :=
  top_level (mainBehavior env st)

/-! ### Concrete fixtures used to instantiate the theorems -/

/-- An entry whose link is the first example job of the spec. -/
def entryJob1 : Entry := { link := some "https://x/job/1" }

/-- An entry whose link is the second example job of the spec. -/
def entryJob2 : Entry := { link := some "https://x/job/2" }

/-- A link-less entry with a title and published date. -/
def entryNoLink : Entry :=
  { title := some "Fix EA", published := some "2024-01-01", summary := some "first text" }

/-- A link-less entry equal to entryNoLink except for its summary. -/
def entryNoLink2 : Entry :=
  { title := some "Fix EA", published := some "2024-01-01", summary := some "other text" }

/-- An entry sharing entryJob2's link but with different title and summary. -/
def entryJob2Alt : Entry :=
  { link := some "https://x/job/2", title := some "Alt", summary := some "alt text" }

/-- A feed whose newest entry is entryJob1. -/
def feedJob1 : Feed := { entries := [entryJob1] }

/-- A feed whose newest entry is entryJob2. -/
def feedJob2 : Feed := { entries := [entryJob2] }

/-- A feed with no entries. -/
def feedEmpty : Feed := { entries := [] }

/-- A fully healthy environment: credentials set, fetch yields feedJob2,
read succeeds, the Telegram API accepts, the write succeeds. -/
def envOK : Env :=
  { botToken := some "token", chatId := some "chat", fetch := .ok feedJob2,
    readFails := false, send := .apiOk, writeFails := false }

/-- envOK but the feed's newest entry is entryJob1. -/
def envJob1 : Env := { envOK with fetch := .ok feedJob1 }

/-- envOK but the bot token is missing. -/
def envNoToken : Env := { envOK with botToken := none }

/-- envOK but the HTTP fetch raises a requests exception. -/
def envFetchFail : Env := { envOK with fetch := .requestError }

/-- envOK but the Telegram send times out. -/
def envSendFail : Env := { envOK with send := .timeout }

/-- envOK but reading last_seen.txt raises. -/
def envReadFail : Env := { envOK with readFails := true }

/-- envOK but writing last_seen.txt raises. -/
def envWriteFail : Env := { envOK with writeFails := true }

/-- Persisted state holding entryJob1's identifier. -/
def stJob1 : PersistState := { file := some "https://x/job/1" }

/-- Persisted state with no last_seen.txt file. -/
def stNone : PersistState := { file := none }

/-! ### Helper lemmas about the MD5 hex digest and identifiers -/

/-- Every hex nibble character is one of the sixteen hex digits. -/
theorem hexNibble_mem_hexChars (n : Nat) : hexNibble n ∈ hexChars := by
  have h : n % 16 < 16 := Nat.mod_lt n (by norm_num)
  unfold hexNibble
  generalize n % 16 = m at h
  interval_cases m <;> decide

/-- Every character of a hex-encoded byte list is a hex digit. -/
theorem bytesToHex_mem_hexChars {c : Char} {bs : List Nat}
    (h : c ∈ bytesToHex bs) : c ∈ hexChars := by
  induction bs with
  | nil => simp [bytesToHex] at h
  | cons b t ih =>
    rw [bytesToHex, List.flatMap_cons] at h
    rcases List.mem_append.mp h with h1 | h2
    · simp only [byteToHex, List.mem_cons, List.not_mem_nil, or_false] at h1
      rcases h1 with h1 | h1 <;> exact h1 ▸ hexNibble_mem_hexChars _
    · exact ih h2

/-- Hex encoding produces two characters per byte. -/
theorem bytesToHex_length (bs : List Nat) :
    (bytesToHex bs).length = 2 * bs.length := by
  induction bs with
  | nil => rfl
  | cons b t ih =>
    rw [bytesToHex, List.flatMap_cons] at *
    simp [byteToHex, ih]
    omega

/-- The MD5 digest is always sixteen bytes. -/
theorem md5Digest_length (msg : List Nat) : (md5Digest msg).length = 16 := by
  simp [md5Digest, leBytes]

/-- The MD5 hex digest is always 32 characters. -/
theorem md5_hexdigest_length (s : String) : (md5_hexdigest s).length = 32 := by
  show (bytesToHex (md5Digest _)).length = 32
  rw [bytesToHex_length, md5Digest_length]

/-- Every character of the MD5 hex digest is a hex digit. -/
theorem md5_hexdigest_mem_hexChars (s : String) :
    ∀ c ∈ (md5_hexdigest s).data, c ∈ hexChars := by
  intro c hc
  exact bytesToHex_mem_hexChars hc

/-- The MD5 hex digest is never the empty string. -/
theorem md5_hexdigest_ne_empty (s : String) : md5_hexdigest s ≠ "" := by
  intro h
  have := md5_hexdigest_length s
  rw [h] at this
  simp [String.length] at this

/-- generate_job_id never returns the empty string: either the stripped
link is non-empty and returned directly, or a 32-character digest is. -/
theorem generate_job_id_ne_empty (e : Entry) : generate_job_id e ≠ "" := by
  unfold generate_job_id
  by_cases h : pyStrip (e.link.getD "") = ""
  · simp only [h, ne_eq, not_true_eq_false, if_false]
    exact md5_hexdigest_ne_empty _
  · simp [h]

/-- When the stripped link is empty, generate_job_id is the digest of the
stripped title and published date joined by a bar. -/
theorem generate_job_id_of_no_link (e : Entry)
    (h : pyStrip (e.link.getD "") = "") :
    generate_job_id e =
      md5_hexdigest (pyStrip (e.title.getD "") ++ "|" ++
        pyStrip (entryPublished e "")) := by
  unfold generate_job_id
  simp [h]

/-- When the stripped link is non-empty, generate_job_id returns it. -/
theorem generate_job_id_of_link (e : Entry)
    (h : pyStrip (e.link.getD "") ≠ "") :
    generate_job_id e = pyStrip (e.link.getD "") := by
  unfold generate_job_id
  simp [h]

/-- The only sys.exit calls in main are the two credential checks, so
main's exit code is some 1 exactly when a credential is falsy. -/
theorem main_exitCode (env : Env) (st : PersistState) :
    (main env st).exitCode =
      if falsy env.botToken || falsy env.chatId then some 1 else none := by
  unfold main
  cases hb : falsy env.botToken with
  | true => simp
  | false =>
    cases hc : falsy env.chatId with
    | true => simp
    | false =>
      simp only [Bool.false_eq_true, if_false, Bool.or_self]
      repeat' split
      all_goals rfl

/-- The process exit code is 1 when a credential is falsy, otherwise 0. -/
theorem process_exit_eq (env : Env) (st : PersistState) :
    process_exit env st =
      if falsy env.botToken || falsy env.chatId then 1 else 0 := by
  unfold process_exit mainBehavior
  rw [main_exitCode]
  cases falsy env.botToken || falsy env.chatId <;> rfl

/-- C10: an interrupt caught at the top level exits with the success
status 0, while any other unexpected exception reaching the top level is
caught and turned into the failure exit status 1 instead of a raw crash. -/
theorem claim_C10_top_level_interrupts :
    top_level MainBehavior.keyboardInterrupt = 0 ∧
    top_level MainBehavior.unexpectedError = 1 ∧
    top_level MainBehavior.keyboardInterrupt ≠
      top_level MainBehavior.unexpectedError :=
  ⟨rfl, rfl, by decide⟩

/-- C8: generate_job_id always returns a non-empty string: the non-empty
stripped link, or a 32-character string of hex digits; hence any guard on
the identifier being empty always takes its else branch, so the abort in
main at the falsy-identifier check is unreachable. -/
theorem claim_C8_id_nonempty (e : Entry) :
    generate_job_id e ≠ "" ∧
    (pyStrip (e.link.getD "") = "" →
      (generate_job_id e).length = 32 ∧
      ∀ c ∈ (generate_job_id e).data, c ∈ hexChars) ∧
    (pyStrip (e.link.getD "") ≠ "" →
      generate_job_id e = pyStrip (e.link.getD "")) ∧
    ∀ X Y : MainOutcome, (if generate_job_id e = "" then X else Y) = Y := by
  refine ⟨generate_job_id_ne_empty e, ?_, generate_job_id_of_link e, ?_⟩
  · intro h
    rw [generate_job_id_of_no_link e h]
    exact ⟨md5_hexdigest_length _, md5_hexdigest_mem_hexChars _⟩
  · intro X Y
    exact if_neg (generate_job_id_ne_empty e)

/-- C8 witness: at a concrete entry with no link the identifier is
non-empty and 32 characters long. -/
theorem claim_C8_id_nonempty_witness :
    generate_job_id entryNoLink ≠ "" ∧
    (generate_job_id entryNoLink).length = 32 :=
  ⟨(claim_C8_id_nonempty entryNoLink).1,
   ((claim_C8_id_nonempty entryNoLink).2.1 (by decide)).1⟩

/-- C4: identifier derivation is deterministic in the entry fields it
reads: with a non-empty stripped link the identifier is that link (so
entries sharing a link share an identifier whatever their summaries), and
with no link it is the digest of the stripped title and published date
(so link-less entries sharing those share an identifier). -/
theorem claim_C4_identifier_stability (e1 e2 : Entry) :
    (pyStrip (e1.link.getD "") ≠ "" →
      generate_job_id e1 = pyStrip (e1.link.getD "")) ∧
    (pyStrip (e1.link.getD "") = pyStrip (e2.link.getD "") →
      pyStrip (e1.link.getD "") ≠ "" →
      generate_job_id e1 = generate_job_id e2) ∧
    (pyStrip (e1.link.getD "") = "" → pyStrip (e2.link.getD "") = "" →
      pyStrip (e1.title.getD "") = pyStrip (e2.title.getD "") →
      pyStrip (entryPublished e1 "") = pyStrip (entryPublished e2 "") →
      generate_job_id e1 = generate_job_id e2) := by
  refine ⟨generate_job_id_of_link e1, ?_, ?_⟩
  · intro heq hne
    rw [generate_job_id_of_link e1 hne, generate_job_id_of_link e2 (heq ▸ hne)]
    exact heq
  · intro h1 h2 ht hp
    rw [generate_job_id_of_no_link e1 h1, generate_job_id_of_no_link e2 h2, ht, hp]

/-- C4 witness: two entries sharing a link but differing in title and
summary get the same identifier, namely the link; two link-less entries
sharing title and published date but differing in summary also agree. -/
theorem claim_C4_identifier_stability_witness :
    generate_job_id entryJob2 = generate_job_id entryJob2Alt ∧
    generate_job_id entryNoLink = generate_job_id entryNoLink2 ∧
    generate_job_id entryJob2 = "https://x/job/2" :=
  ⟨(claim_C4_identifier_stability entryJob2 entryJob2Alt).2.1 (by decide) (by decide),
   (claim_C4_identifier_stability entryNoLink entryNoLink2).2.2 (by decide)
     (by decide) (by decide) (by decide),
   (claim_C4_identifier_stability entryJob2 entryJob2Alt).1 (by decide)⟩

/-- C1: in a run where the persisted identifier A exists and differs from
the newest entry's identifier B, exactly one notification attempt is made;
the identifier B is written to the persisted store exactly when that
attempt reports success (and the stored value then becomes B when the
write goes through), while a failed attempt leaves the persisted state at
A so the same transition is retried next run. -/
theorem claim_C1_notify_once_per_transition (env : Env) (st : PersistState)
    (feed : Feed) (latest : Entry) (rest : List Entry) (A B : String)
    (hbot : falsy env.botToken = false) (hchat : falsy env.chatId = false)
    (hfetch : fetch_rss_feed env.fetch = some feed)
    (hentries : feed.entries = latest :: rest)
    (hid : generate_job_id latest = B)
    (hread : read_last_seen st env.readFails = some A)
    (hAB : B ≠ A) :
    (main env st).notifyAttempts = 1 ∧
    ((main env st).writes = [B] ↔
      send_telegram_message env.botToken env.chatId env.send = true) ∧
    (send_telegram_message env.botToken env.chatId env.send = false →
      (main env st).writes = [] ∧ (main env st).state = st) ∧
    (send_telegram_message env.botToken env.chatId env.send = true →
      env.writeFails = false → (main env st).state.file = some B) := by
  have hBne : B ≠ "" := by
    rw [← hid]
    exact generate_job_id_ne_empty latest
  cases hsend : send_telegram_message env.botToken env.chatId env.send with
  | false =>
    simp [main, hbot, hchat, hfetch, hentries, hid, hread, hAB, hBne, hsend]
  | true =>
    simp [main, hbot, hchat, hfetch, hentries, hid, hread, hAB, hBne, hsend,
      write_last_seen]
    intro hw
    simp [hw]

/-- C1 witness: concrete transition from job/1 to job/2 with a successful
send: one attempt, job/2 written and persisted. -/
theorem claim_C1_notify_once_per_transition_witness :
    (main envOK stJob1).notifyAttempts = 1 ∧
    (main envOK stJob1).writes = ["https://x/job/2"] ∧
    (main envOK stJob1).state.file = some "https://x/job/2" := by
  have h := claim_C1_notify_once_per_transition envOK stJob1 feedJob2 entryJob2
    [] "https://x/job/1" "https://x/job/2" (by decide) (by decide) rfl rfl
    (by decide) (by decide) (by decide)
  exact ⟨h.1, h.2.1.mpr (by decide), h.2.2.2 (by decide) (by decide)⟩

/-- C2: a run with credentials, a non-empty feed and no persisted prior
identifier sends no notification, writes the newest entry's identifier
(which becomes the stored value when the write goes through), and exits
normally with the success status. -/
theorem claim_C2_first_run (env : Env) (st : PersistState)
    (feed : Feed) (latest : Entry) (rest : List Entry)
    (hbot : falsy env.botToken = false) (hchat : falsy env.chatId = false)
    (hfetch : fetch_rss_feed env.fetch = some feed)
    (hentries : feed.entries = latest :: rest)
    (hread : read_last_seen st env.readFails = none) :
    (main env st).notifyAttempts = 0 ∧
    (main env st).writes = [generate_job_id latest] ∧
    (env.writeFails = false →
      (main env st).state.file = some (generate_job_id latest)) ∧
    (main env st).exitCode = none ∧ process_exit env st = 0 := by
  have hne := generate_job_id_ne_empty latest
  refine ⟨?_, ?_, ?_, ?_, ?_⟩ <;>
    simp [main, hbot, hchat, hfetch, hentries, hread, hne, write_last_seen,
      process_exit, mainBehavior, top_level]
  intro hw
  simp [hw]

/-- C2 witness: first run on the one-entry example feed persists the
job/1 link, sends nothing, and exits 0. -/
theorem claim_C2_first_run_witness :
    (main envJob1 stNone).notifyAttempts = 0 ∧
    (main envJob1 stNone).writes = [generate_job_id entryJob1] ∧
    (main envJob1 stNone).state.file = some (generate_job_id entryJob1) ∧
    process_exit envJob1 stNone = 0 := by
  have h := claim_C2_first_run envJob1 stNone feedJob1 entryJob1 []
    (by decide) (by decide) rfl rfl (by decide)
  exact ⟨h.1, h.2.1, h.2.2.1 (by decide), h.2.2.2.2⟩

/-- C3: when the newest entry's identifier equals the persisted one, the
run sends nothing and leaves the persisted state untouched; consequently a
second run in the same environment again sends nothing and ends with the
same persisted state as the first. -/
theorem claim_C3_unchanged_idempotent (env : Env) (st : PersistState)
    (feed : Feed) (latest : Entry) (rest : List Entry) (L : String)
    (hbot : falsy env.botToken = false) (hchat : falsy env.chatId = false)
    (hfetch : fetch_rss_feed env.fetch = some feed)
    (hentries : feed.entries = latest :: rest)
    (hread : read_last_seen st env.readFails = some L)
    (hid : generate_job_id latest = L) :
    (main env st).notifyAttempts = 0 ∧ (main env st).writes = [] ∧
    (main env st).state = st ∧ (main env st).exitCode = none ∧
    (main env (main env st).state).notifyAttempts = 0 ∧
    (main env (main env st).state).state = (main env st).state := by
  have hLne : L ≠ "" := by
    rw [← hid]
    exact generate_job_id_ne_empty latest
  have hmain : main env st =
      { exitCode := none, fetchAttempts := 1, notifyAttempts := 0,
        writes := [], state := st } := by
    simp [main, hbot, hchat, hfetch, hentries, hread, hid, hLne]
  simp [hmain]

/-- C3 witness: with job/1 both in the feed and persisted, two successive
runs send nothing and keep the persisted state fixed. -/
theorem claim_C3_unchanged_idempotent_witness :
    (main envJob1 stJob1).notifyAttempts = 0 ∧
    (main envJob1 stJob1).state = stJob1 ∧
    (main envJob1 (main envJob1 stJob1).state).notifyAttempts = 0 ∧
    (main envJob1 (main envJob1 stJob1).state).state =
      (main envJob1 stJob1).state := by
  have h := claim_C3_unchanged_idempotent envJob1 stJob1 feedJob1 entryJob1
    [] "https://x/job/1" (by decide) (by decide) rfl rfl (by decide) (by decide)
  exact ⟨h.1, h.2.2.1, h.2.2.2.2.1, h.2.2.2.2.2⟩

/-- C5: when either credential is absent (falsy), main aborts before any
network activity — no fetch and no notification call — with exit status 1,
distinct from the success status 0 that every run with both credentials
present ends with (including no-change runs). -/
theorem claim_C5_missing_credentials (env : Env) (st : PersistState) :
    ((falsy env.botToken || falsy env.chatId) = true →
      (main env st).fetchAttempts = 0 ∧ (main env st).notifyAttempts = 0 ∧
      process_exit env st = 1 ∧ process_exit env st ≠ 0) ∧
    (falsy env.botToken = false → falsy env.chatId = false →
      process_exit env st = 0) := by
  constructor
  · intro h
    have hpe : process_exit env st = 1 := by
      rw [process_exit_eq, h]
      rfl
    refine ⟨?_, ?_, hpe, by rw [hpe]; norm_num⟩ <;>
      (cases hb : falsy env.botToken with
        | true => simp [main, hb]
        | false =>
          rw [hb, Bool.false_or] at h
          simp [main, hb, h])
  · intro hb hc
    rw [process_exit_eq, hb, hc]
    rfl

/-- C5 witness: with the bot token missing, no fetch or notify happens and
the exit status is 1; the healthy environment exits 0. -/
theorem claim_C5_missing_credentials_witness :
    (main envNoToken stJob1).fetchAttempts = 0 ∧
    (main envNoToken stJob1).notifyAttempts = 0 ∧
    process_exit envNoToken stJob1 = 1 ∧
    process_exit envOK stJob1 = 0 := by
  have h1 := (claim_C5_missing_credentials envNoToken stJob1).1 (by decide)
  have h2 := (claim_C5_missing_credentials envOK stJob1).2 (by decide) (by decide)
  exact ⟨h1.1, h1.2.1, h1.2.2.1, h2⟩

/-- C6: a requests exception, any other exception during fetch or parse,
and a feed with no entries all make fetch_rss_feed return None, and a run
with credentials whose fetch returns None ends normally with exit code
none, one fetch, no notification, no write, and unchanged state. -/
theorem claim_C6_fetch_failure (env : Env) (st : PersistState) (feed : Feed) :
    fetch_rss_feed FetchOutcome.requestError = none ∧
    fetch_rss_feed FetchOutcome.otherError = none ∧
    (feed.entries = [] → fetch_rss_feed (FetchOutcome.ok feed) = none) ∧
    (falsy env.botToken = false → falsy env.chatId = false →
      fetch_rss_feed env.fetch = none →
      main env st =
        { exitCode := none, fetchAttempts := 1, notifyAttempts := 0,
          writes := [], state := st }) := by
  refine ⟨rfl, rfl, ?_, ?_⟩
  · intro h
    simp [fetch_rss_feed, h]
  · intro hb hc hf
    simp [main, hb, hc, hf]

/-- C6 witness: a failed fetch at the healthy credentials leaves the
state alone, sends nothing, and the empty feed maps to None. -/
theorem claim_C6_fetch_failure_witness :
    fetch_rss_feed (FetchOutcome.ok feedEmpty) = none ∧
    main envFetchFail stJob1 =
      { exitCode := none, fetchAttempts := 1, notifyAttempts := 0,
        writes := [], state := stJob1 } := by
  have h := claim_C6_fetch_failure envFetchFail stJob1 feedEmpty
  exact ⟨h.2.2.1 (by decide), h.2.2.2 (by decide) (by decide) rfl⟩

/-- C7: persistence errors stay local. A failing read yields None exactly
like a missing file, so a run with a failing read takes the first-run
path (no notification, the newest identifier written, normal return); a
failing write is absorbed by write_last_seen, and a run whose notification
succeeded but whose write fails still returns normally with its one
notification attempt intact, the state merely staying as it was. -/
theorem claim_C7_persistence_errors (env : Env) (st : PersistState)
    (idStr : String) (feed : Feed) (latest : Entry) (rest : List Entry) :
    read_last_seen st true = none ∧
    read_last_seen { file := none } env.readFails = none ∧
    write_last_seen true st idStr = st ∧
    (falsy env.botToken = false → falsy env.chatId = false →
      fetch_rss_feed env.fetch = some feed → feed.entries = latest :: rest →
      env.readFails = true →
      (main env st).notifyAttempts = 0 ∧
      (main env st).writes = [generate_job_id latest] ∧
      (main env st).exitCode = none) ∧
    (∀ A : String, falsy env.botToken = false → falsy env.chatId = false →
      fetch_rss_feed env.fetch = some feed → feed.entries = latest :: rest →
      read_last_seen st env.readFails = some A → generate_job_id latest ≠ A →
      send_telegram_message env.botToken env.chatId env.send = true →
      env.writeFails = true →
      (main env st).exitCode = none ∧ (main env st).notifyAttempts = 1 ∧
      (main env st).state = st) := by
  have hne := generate_job_id_ne_empty latest
  refine ⟨?_, rfl, ?_, ?_, ?_⟩
  · cases h : st.file <;> simp [read_last_seen, h]
  · simp [write_last_seen]
  · intro hb hc hf he hr
    have hr0 : read_last_seen st env.readFails = none := by
      rw [hr]
      cases h : st.file <;> simp [read_last_seen, h]
    simp [main, hb, hc, hf, he, hr0, hne]
  · intro A hb hc hf he hr hA hs hw
    simp [main, hb, hc, hf, he, hr, hA, hs, hw, hne, write_last_seen]

/-- C7 witness: a failing read takes the first-run path at the example
feed; a failing write after a successful notification keeps job/1
persisted while the attempt still counts and the run exits normally. -/
theorem claim_C7_persistence_errors_witness :
    read_last_seen stJob1 true = none ∧
    write_last_seen true stJob1 "x" = stJob1 ∧
    (main envReadFail stJob1).notifyAttempts = 0 ∧
    (main envReadFail stJob1).writes = [generate_job_id entryJob2] ∧
    (main envWriteFail stJob1).notifyAttempts = 1 ∧
    (main envWriteFail stJob1).state = stJob1 ∧
    (main envWriteFail stJob1).exitCode = none := by
  have h1 := claim_C7_persistence_errors envReadFail stJob1 "x" feedJob2
    entryJob2 []
  have h2 := (claim_C7_persistence_errors envWriteFail stJob1 "x" feedJob2
    entryJob2 []).2.2.2.2 "https://x/job/1" (by decide) (by decide) rfl rfl
    (by decide) (by decide) (by decide) (by decide)
  have h1run := h1.2.2.2.1 (by decide) (by decide) rfl rfl (by decide)
  exact ⟨h1.1, h1.2.2.1, h1run.1, h1run.2.1, h2.2.1, h2.2.2, h2.1⟩

/-- C9: with both credentials present main always returns normally, so
fetch failures, empty or malformed feeds, send failures and write
failures all end the process with the success status 0; the failure
status arises only from missing credentials (exit 1 via SystemExit) or an
unexpected exception converted to exit 1 at the top level. -/
theorem claim_C9_success_exit_paths (env : Env) (st : PersistState) :
    ((falsy env.botToken || falsy env.chatId) = false →
      (main env st).exitCode = none ∧ process_exit env st = 0) ∧
    ((falsy env.botToken || falsy env.chatId) = true →
      process_exit env st = 1) ∧
    top_level MainBehavior.unexpectedError = 1 ∧
    top_level MainBehavior.returns = 0 := by
  refine ⟨?_, ?_, rfl, rfl⟩
  · intro h
    constructor
    · rw [main_exitCode, h]
      rfl
    · rw [process_exit_eq, h]
      rfl
  · intro h
    rw [process_exit_eq, h]
    rfl

/-- C9 witness: a failed fetch exits 0 while missing credentials exit 1. -/
theorem claim_C9_success_exit_paths_witness :
    (main envFetchFail stJob1).exitCode = none ∧
    process_exit envFetchFail stJob1 = 0 ∧
    process_exit envNoToken stJob1 = 1 := by
  have h1 := (claim_C9_success_exit_paths envFetchFail stJob1).1 (by decide)
  have h2 := (claim_C9_success_exit_paths envNoToken stJob1).2.1 (by decide)
  exact ⟨h1.1, h1.2, h2⟩

end MQL5Monitor
